import Mathlib

/-!
Verification of the ghost_flight ingestion–classification–alerting pipeline
(`src/app.py`, `src/collector.py`) against its natural-language specification.

The Python source is shallowly embedded: the mutable module-level globals
(`token_cache`, `alerts_config`, `alerts_history`, `seen_cargo_flights`) become
an explicit `AppState` threaded through the functions; every call to
`time.time()` is modelled by sampling a `clock : Nat → Nat` (milliseconds at
the i-th call) at an explicitly threaded call counter, exactly in the order the
Python code performs the calls; Python strings are modelled by `String` with
`str.strip` / `str.upper` (on the basic-latin range the source actually uses)
re-implemented over the character list.
-/

/-! ## Python string primitives (`str.strip`, `str.upper`, `str.startswith`) -/

/-- Whitespace as stripped by Python `str.strip()` (space, tab, LF, VT, FF, CR). -/
def wsChar (c : Char) : Bool :=
  c.toNat == 32 || c.toNat == 9 || c.toNat == 10 || c.toNat == 11 || c.toNat == 12 || c.toNat == 13

/-- Python `str.upper` on one character, restricted to the basic-latin letters
(the only ones the source's prefix tables contain). -/
def upChar (c : Char) : Char :=
  if 97 ≤ c.toNat ∧ c.toNat ≤ 122 then Char.ofNat (c.toNat - 32) else c

/-- Strip `wsChar` from both ends of a character list (Python `str.strip`). -/
def stripL (l : List Char) : List Char :=
  (l.dropWhile wsChar).rdropWhile wsChar

/-- Python `s.strip()`. -/
def pyStrip (s : String) : String := ⟨stripL s.data⟩

/-- Python `s.upper()`. -/
def pyUpper (s : String) : String := ⟨s.data.map upChar⟩

/-- Python `s.startswith(p)`. -/
def pyStartsWith (s p : String) : Bool := p.data.isPrefixOf s.data

/-! ## Classifier (`app.py:classify_flight`, lines 123–147)

`OPERATOR_MAP` is loaded from an optional JSON file at startup (already
upper-cased there); the two configured prefix lists are therefore parameters of
the embedding.  The callsign parameter merges Python `None` with `""`, exactly
as `if not callsign` treats them. -/

def fallback_cargo : List String :=
  ["FDX", "UPS", "DHX", "DHL", "CVG", "CLX", "AMX", "NCA", "GEC", "GTI"]

def classify_flight (cargo_prefixes commercial_prefixes : List String)
    (callsign : String) : String :=
  if callsign = "" then "desconocido"
  else
    let s := pyUpper (pyStrip callsign)
    if cargo_prefixes.any (fun p => pyStartsWith s p) then "carga"
    else if commercial_prefixes.any (fun p => pyStartsWith s p) then "comercial"
    else if fallback_cargo.any (fun p => pyStartsWith s p) then "carga"
    else "comercial"

/-! ## Data model

`Vuelo` is the normalized flight record built by `app.py:vuelos` (lines
305–316) and `collector.py:process_and_store` (lines 89–100).  Numeric fields
are modelled over `Int` (the claims only involve order comparisons and Python
truthiness, both preserved); `Option` models JSON `null`/Python `None`. -/

structure Vuelo where
  icao24 : String
  callsign : String
  origin_country : Option String
  latitude : Int
  longitude : Int
  altitude : Option Int
  velocity : Option Int
  heading : Option Int
  type : String
  fetched_at : Nat
deriving DecidableEq

/-- The `flight_data` sub-dictionary of an alert; each alert type populates a
subset of the keys (`app.py` lines 169–173, 186–189, 206–210, 227–231). -/
structure FlightData where
  callsign : Option String := none
  icao24 : Option String := none
  altitude : Option Int := none
  velocity : Option Int := none
  total : Option Nat := none
  cargo : Option Nat := none
deriving DecidableEq

/-- An alert dictionary as built by `check_alerts` (`app.py` lines 162–174 etc.). -/
structure Alert where
  id : Int
  type : String
  title : String
  message : String
  severity : String
  timestamp : Nat
  flight_data : FlightData
deriving DecidableEq

/-- `alerts_config` (`app.py` lines 40–49). -/
structure AlertsConfig where
  cargo_entry_enabled : Bool
  high_count_enabled : Bool
  high_count_threshold : Int
  low_altitude_enabled : Bool
  low_altitude_threshold : Int
  abnormal_speed_enabled : Bool
  abnormal_speed_threshold : Int
  sound_enabled : Bool
deriving DecidableEq

/-- `token_cache` (`app.py` lines 34–37). -/
structure TokenCacheSt where
  access_token : Option String
  expires_at : Nat
deriving DecidableEq

/-- The module-level mutable state of `app.py`: `token_cache`, `alerts_config`,
`alerts_history`, `seen_cargo_flights` (the Python `set` is modelled as a
duplicate-free insertion list; only membership and insertion are used). -/
structure AppState where
  token_cache : TokenCacheSt
  alerts_config : AlertsConfig
  alerts_history : List Alert
  seen_cargo_flights : List String
deriving DecidableEq

/-- The initial values of the globals (`app.py` lines 34–49, 88). -/
def initial_config : AlertsConfig :=
  { cargo_entry_enabled := true
    high_count_enabled := true
    high_count_threshold := 10
    low_altitude_enabled := true
    low_altitude_threshold := 3000
    abnormal_speed_enabled := true
    abnormal_speed_threshold := 500
    sound_enabled := true }

def init_state : AppState :=
  { token_cache := { access_token := none, expires_at := 0 }
    alerts_config := initial_config
    alerts_history := []
    seen_cargo_flights := [] }

/-- Python slice `l[-n:]`: the last `n` entries (all of them when shorter). -/
def lastN (n : Nat) (l : List α) : List α :=
  l.drop (l.length - n)

/-- Python `None`-aware rendering used in f-string interpolation of optional
numeric fields. -/
def showOptInt : Option Int → String
  | some n => toString n
  | none => "None"

/-! ## AlertEngine (`app.py:check_alerts`, lines 149–243)

Each call to `time.time()` is one sample of `clock` at the threaded counter
`k`; an alert construction consumes two samples (one for `id`, at millisecond
resolution, one for `timestamp`, floored to seconds).  In Python the samples
are taken in exactly this order, including for alerts that are subsequently
suppressed by a dedup window. -/

/-- Alert built at `app.py` lines 162–174. -/
def cargo_alert (clock : Nat → Nat) (k : Nat) (v : Vuelo) : Alert :=
  { id := (clock k : Int)
    type := "cargo_entry"
    title := "Vuelo de Carga Detectado"
    message := "Nuevo vuelo de carga " ++ v.callsign ++ " ha entrado en el área"
    severity := "warning"
    timestamp := clock (k + 1) / 1000
    flight_data := { callsign := some v.callsign, icao24 := some v.icao24,
                     altitude := v.altitude } }

/-- The cargo-entry loop (`app.py` lines 158–175): sequentially checks and
updates the seen-cargo set, so a second record with the same `icao24` in the
same batch is already deduplicated. -/
def cargo_entry_pass (clock : Nat → Nat) :
    List Vuelo → List String → Nat → List Alert × List String × Nat
  | [], seen, k => ([], seen, k)
  | v :: vs, seen, k =>
    if v.type = "carga" ∧ v.icao24 ∉ seen then
      let out := cargo_entry_pass clock vs (seen ++ [v.icao24]) (k + 2)
      (cargo_alert clock k v :: out.1, out.2)
    else
      cargo_entry_pass clock vs seen k

/-- Alert built at `app.py` lines 179–190. -/
def high_count_alert (clock : Nat → Nat) (cfg : AlertsConfig) (k : Nat)
    (vuelos : List Vuelo) : Alert :=
  { id := (clock k : Int) + 1
    type := "high_count"
    title := "Alto Tráfico Aéreo"
    message := "Se detectaron " ++ toString vuelos.length ++
      " vuelos en el área (umbral: " ++ toString cfg.high_count_threshold ++ ")"
    severity := "info"
    timestamp := clock (k + 1) / 1000
    flight_data := { total := some vuelos.length,
                     cargo := some (vuelos.filter (fun v => v.type == "carga")).length } }

/-- Python truthiness test `vuelo.get("altitude") and vuelo.get("altitude") < thr`
(`app.py` line 198): `None` and `0` are both falsy. -/
def lowTrig (cfg : AlertsConfig) (v : Vuelo) : Bool :=
  match v.altitude with
  | none => false
  | some a => a != 0 && a < cfg.low_altitude_threshold

/-- Dedup window at `app.py` line 213: a `low_altitude` alert for the same
`icao24` among the last 10 history entries. -/
def lowSuppressed (hist : List Alert) (v : Vuelo) : Bool :=
  (lastN 10 hist).any
    (fun a => a.flight_data.icao24 == some v.icao24 && a.type == "low_altitude")

/-- Alert built at `app.py` lines 199–211. -/
def low_altitude_alert (clock : Nat → Nat) (cfg : AlertsConfig) (k : Nat)
    (v : Vuelo) : Alert :=
  { id := (clock k : Int) + 2
    type := "low_altitude"
    title := "Altitud Baja Detectada"
    message := "Vuelo " ++ v.callsign ++ " a " ++ showOptInt v.altitude ++
      " ft (umbral: " ++ toString cfg.low_altitude_threshold ++ " ft)"
    severity := "danger"
    timestamp := clock (k + 1) / 1000
    flight_data := { callsign := some v.callsign, icao24 := some v.icao24,
                     altitude := v.altitude } }

/-- The low-altitude loop (`app.py` lines 196–214): the alert is constructed
(sampling the clock) for every triggering record and appended only when not
suppressed; the dedup window reads the pre-pass history. -/
def low_altitude_pass (clock : Nat → Nat) (cfg : AlertsConfig)
    (hist : List Alert) : List Vuelo → Nat → List Alert × Nat
  | [], k => ([], k)
  | v :: vs, k =>
    if lowTrig cfg v then
      let a := low_altitude_alert clock cfg k v
      let out := low_altitude_pass clock cfg hist vs (k + 2)
      (if lowSuppressed hist v then out.1 else a :: out.1, out.2)
    else
      low_altitude_pass clock cfg hist vs k

/-- Python truthiness test at `app.py` line 219 for `velocity`. -/
def speedTrig (cfg : AlertsConfig) (v : Vuelo) : Bool :=
  match v.velocity with
  | none => false
  | some w => w != 0 && w > cfg.abnormal_speed_threshold

/-- Dedup window at `app.py` line 233. -/
def speedSuppressed (hist : List Alert) (v : Vuelo) : Bool :=
  (lastN 10 hist).any
    (fun a => a.flight_data.icao24 == some v.icao24 && a.type == "abnormal_speed")

/-- Alert built at `app.py` lines 220–232. -/
def abnormal_speed_alert (clock : Nat → Nat) (cfg : AlertsConfig) (k : Nat)
    (v : Vuelo) : Alert :=
  { id := (clock k : Int) + 3
    type := "abnormal_speed"
    title := "Velocidad Anormal"
    message := "Vuelo " ++ v.callsign ++ " a " ++ showOptInt v.velocity ++
      " knots (umbral: " ++ toString cfg.abnormal_speed_threshold ++ " knots)"
    severity := "warning"
    timestamp := clock (k + 1) / 1000
    flight_data := { callsign := some v.callsign, icao24 := some v.icao24,
                     velocity := v.velocity } }

/-- The abnormal-speed loop (`app.py` lines 217–234). -/
def abnormal_speed_pass (clock : Nat → Nat) (cfg : AlertsConfig)
    (hist : List Alert) : List Vuelo → Nat → List Alert × Nat
  | [], k => ([], k)
  | v :: vs, k =>
    if speedTrig cfg v then
      let a := abnormal_speed_alert clock cfg k v
      let out := abnormal_speed_pass clock cfg hist vs (k + 2)
      (if speedSuppressed hist v then out.1 else a :: out.1, out.2)
    else
      abnormal_speed_pass clock cfg hist vs k

/-- Stage 1 of `check_alerts`: the cargo-entry rule, gated by its flag. -/
def cargoStage (clock : Nat → Nat) (vuelos : List Vuelo) (s : AppState) :
    List Alert × List String × Nat :=
  if s.alerts_config.cargo_entry_enabled then
    cargo_entry_pass clock vuelos s.seen_cargo_flights 0
  else
    ([], s.seen_cargo_flights, 0)

/-- Stage 2 of `check_alerts` (`app.py` lines 177–193): the alert is built
whenever the count exceeds the threshold, then dropped when a `high_count`
alert sits in the last 5 history entries. -/
def highStage (clock : Nat → Nat) (vuelos : List Vuelo) (s : AppState)
    (k : Nat) : List Alert × Nat :=
  if s.alerts_config.high_count_enabled ∧
      (vuelos.length : Int) > s.alerts_config.high_count_threshold then
    let a := high_count_alert clock s.alerts_config k vuelos
    (if (lastN 5 s.alerts_history).any (fun al => al.type == "high_count")
      then [] else [a], k + 2)
  else
    ([], k)

/-- Stage 3: the low-altitude rule, gated by its flag. -/
def lowStage (clock : Nat → Nat) (vuelos : List Vuelo) (s : AppState)
    (k : Nat) : List Alert × Nat :=
  if s.alerts_config.low_altitude_enabled then
    low_altitude_pass clock s.alerts_config s.alerts_history vuelos k
  else
    ([], k)

/-- Stage 4: the abnormal-speed rule, gated by its flag. -/
def speedStage (clock : Nat → Nat) (vuelos : List Vuelo) (s : AppState)
    (k : Nat) : List Alert × Nat :=
  if s.alerts_config.abnormal_speed_enabled then
    abnormal_speed_pass clock s.alerts_config s.alerts_history vuelos k
  else
    ([], k)

/-- The `new_alerts` list of one `check_alerts` pass, in the exact order the
Python code appends (cargo, high-count, low-altitude, abnormal-speed). -/
def newAlerts (clock : Nat → Nat) (vuelos : List Vuelo) (s : AppState) :
    List Alert :=
  let c := cargoStage clock vuelos s
  let h := highStage clock vuelos s c.2.2
  let lo := lowStage clock vuelos s h.2
  let sp := speedStage clock vuelos s lo.2
  c.1 ++ h.1 ++ lo.1 ++ sp.1

/-- `app.py:check_alerts` (lines 149–243): returns the pass's new alerts and
the updated global state.  History is extended with the new alerts and, when
longer than 100, trimmed to the last 100 (`del alerts_history[:-100]`). -/
def check_alerts (clock : Nat → Nat) (vuelos : List Vuelo) (s : AppState) :
    List Alert × AppState :=
  let na := newAlerts clock vuelos s
  let h2 := s.alerts_history ++ na
  (na,
    { s with
      alerts_history := if h2.length > 100 then lastN 100 h2 else h2
      seen_cargo_flights := (cargoStage clock vuelos s).2.1 })

/-- `app.py:clear_alerts` (lines 372–377): empties the alert history and the
seen-cargo set, leaving the config and token cache untouched. -/
def clear_alerts (s : AppState) : AppState :=
  { s with alerts_history := [], seen_cargo_flights := [] }

/-! ## TokenCache (`app.py:obtener_token`, lines 93–120)

The upstream exchange response is a parameter: `status` is the HTTP status
code (`raise_for_status` raises exactly for 4xx/5xx) and the body is either
unparseable (`response.json()` raises, uncaught by the `except HTTPError`
clause, hence still an exception to the caller) or a JSON object.  JSON field
values are assumed well-typed when present.  `Except.error` models an
exception escaping the function; the `.ok` payload is the returned value
(`Option` because Python returns `None` when the body has no access token)
together with the updated cache. -/

inductive JVal where
  | null
  | str (s : String)
  | num (n : Int)
deriving DecidableEq

inductive RespBody where
  | malformed
  | fields (l : List (String × JVal))
deriving DecidableEq

structure HttpResp where
  status : Nat
  body : RespBody
deriving DecidableEq

inductive TokenErr where
  | httpError (status : Nat)
  | jsonError
deriving DecidableEq

/-- Python `dict.get` on the decoded JSON object. -/
def lookupField (l : List (String × JVal)) (k : String) : Option JVal :=
  (l.find? (fun kv => kv.1 == k)).map (fun kv => kv.2)

/-- Truthiness of `token_cache["access_token"]` (`None` and `""` are falsy). -/
def truthyTok : Option String → Bool
  | none => false
  | some s => s != ""

def obtener_token (now : Nat) (cache : TokenCacheSt) (resp : HttpResp) :
    Except TokenErr (Option String × TokenCacheSt) :=
  if truthyTok cache.access_token ∧ cache.expires_at > now then
    .ok (cache.access_token, cache)
  else if 400 ≤ resp.status then
    .error (.httpError resp.status)
  else
    match resp.body with
    | .malformed => .error .jsonError
    | .fields l =>
      let tok : Option String :=
        match lookupField l "access_token" with
        | some (.str s) => some s
        | _ => none
      let expires_in : Nat :=
        match lookupField l "expires_in" with
        | some (.num n) => n.toNat
        | _ => 1800
      .ok (tok, { access_token := tok, expires_at := now + expires_in })

/-! ## Normalizer (`app.py:vuelos` lines 294–317, `collector.py:process_and_store`
lines 78–106)

A raw state vector is the positional JSON array `estado`; `pyIndex` models
Python list indexing, raising `IndexError` past the end.  Positional fields
are assumed to carry the documented types (string / number / null) when
present — only the index errors of short vectors are in scope here.
`Except.error` models an exception propagating out of the loop body (neither
call site wraps the indexing in a per-record handler). -/

def pyIndex (l : List JVal) (i : Nat) : Except String JVal :=
  match l[i]? with
  | some v => .ok v
  | none => .error "IndexError"

/-- `estado[1].strip() if estado[1] else ""`: `None`, `""` and `0` are falsy;
`.strip()` on a number raises. -/
def extractCallsign : JVal → Except String String
  | .null => .ok ""
  | .str s => .ok (pyStrip s)
  | .num n => if n = 0 then .ok "" else .error "AttributeError"

def asNum : JVal → Except String Int
  | .num n => .ok n
  | _ => .error "TypeError"

def asOptNum : JVal → Except String (Option Int)
  | .null => .ok none
  | .num n => .ok (some n)
  | .str _ => .error "TypeError"

def asStr : JVal → Except String String
  | .str s => .ok s
  | _ => .error "TypeError"

def asOptStr : JVal → Except String (Option String)
  | .null => .ok none
  | .str s => .ok (some s)
  | .num _ => .error "TypeError"

/-- One iteration of the loop at `app.py` lines 296–317, in the exact order the
Python statements index `estado` (6, 5, 1, 0, 2, 7, 9, 10); `.ok none` is the
`continue` for positionless vectors. -/
def normalize_estado (cp co : List String) (now_ts : Nat) (estado : List JVal) :
    Except String (Option Vuelo) := do
  let latJ ← pyIndex estado 6
  let lonJ ← pyIndex estado 5
  if latJ = .null ∨ lonJ = .null then
    return none
  let csJ ← pyIndex estado 1
  let callsign ← extractCallsign csJ
  let tipo := classify_flight cp co callsign
  let icaoJ ← pyIndex estado 0
  let icao ← asStr icaoJ
  let ocJ ← pyIndex estado 2
  let oc ← asOptStr ocJ
  let lat ← asNum latJ
  let lon ← asNum lonJ
  let altJ ← pyIndex estado 7
  let alt ← asOptNum altJ
  let velJ ← pyIndex estado 9
  let vel ← asOptNum velJ
  let hdgJ ← pyIndex estado 10
  let hdg ← asOptNum hdgJ
  return some
    { icao24 := icao
      callsign := if callsign = "" then "N/A" else callsign
      origin_country := oc
      latitude := lat
      longitude := lon
      altitude := alt
      velocity := vel
      heading := hdg
      type := tipo
      fetched_at := now_ts }

/-- The normalization loop of `app.py:vuelos`: an exception in any iteration
propagates to the route's outer handler, so the whole batch is lost (the route
answers with a 500 error and `check_alerts` never runs). -/
def vuelos_normalize (cp co : List String) (now_ts : Nat) :
    List (List JVal) → Except String (List Vuelo)
  | [] => .ok []
  | e :: es => do
    let v? ← normalize_estado cp co now_ts e
    let rest ← vuelos_normalize cp co now_ts es
    match v? with
    | none => return rest
    | some v => return v :: rest

/-- One iteration of `collector.py:process_and_store` (lines 81–106), indexing
`estado` in the collector's order (0, 1, 6, 5, then 2, 7, 9, 10). -/
def collector_one (cp co : List String) (now_ts : Nat) (estado : List JVal) :
    Except String (Option Vuelo) := do
  let icaoJ ← pyIndex estado 0
  let icao ← asStr icaoJ
  let csJ ← pyIndex estado 1
  let callsign ← extractCallsign csJ
  let latJ ← pyIndex estado 6
  let lonJ ← pyIndex estado 5
  if latJ = .null ∨ lonJ = .null then
    return none
  let tipo := classify_flight cp co callsign
  let ocJ ← pyIndex estado 2
  let oc ← asOptStr ocJ
  let lat ← asNum latJ
  let lon ← asNum lonJ
  let altJ ← pyIndex estado 7
  let alt ← asOptNum altJ
  let velJ ← pyIndex estado 9
  let vel ← asOptNum velJ
  let hdgJ ← pyIndex estado 10
  let hdg ← asOptNum hdgJ
  return some
    { icao24 := icao
      callsign := if callsign = "" then "N/A" else callsign
      origin_country := oc
      latitude := lat
      longitude := lon
      altitude := alt
      velocity := vel
      heading := hdg
      type := tipo
      fetched_at := now_ts }

/-- Store upsert keyed by `icao24` (last writer wins).  DB write failures are
caught per record in the source (lines 102–106) and never abort the batch, so
they do not appear here. -/
def upsertDoc (flights : List Vuelo) (d : Vuelo) : List Vuelo :=
  if flights.any (fun f => f.icao24 == d.icao24) then
    flights.map (fun f => if f.icao24 == d.icao24 then d else f)
  else
    flights ++ [d]

/-- `collector.py:process_and_store` over a batch: the store contents plus
`some err` when an uncaught exception aborted the loop (the collector's main
loop catches it outside the batch, so every later vector is skipped). -/
def process_and_store (cp co : List String) (now_ts : Nat) :
    List (List JVal) → List Vuelo → List Vuelo × Option String
  | [], flights => (flights, none)
  | e :: es, flights =>
    match collector_one cp co now_ts e with
    | .error err => (flights, some err)
    | .ok none => process_and_store cp co now_ts es flights
    | .ok (some d) => process_and_store cp co now_ts es (upsertDoc flights d)

/-! ## Counting helpers and concrete inputs used by the claims -/

/-- Number of alerts of a given `type` in a list. -/
def countType (t : String) (l : List Alert) : Nat :=
  (l.filter (fun a => a.type == t)).length

/-- Number of `cargo_entry` alerts carrying a given `icao24`. -/
def countCargoFor (x : String) (l : List Alert) : Nat :=
  (l.filter (fun a => a.type == "cargo_entry" && a.flight_data.icao24 == some x)).length

/-- A constant clock: every `time.time()` sample lands in the same millisecond. -/
def constClock (t : Nat) : Nat → Nat := fun _ => t

/-- Two distinct not-yet-seen cargo aircraft in one batch. -/
def vCargo1 : Vuelo :=
  { icao24 := "aaa111"
    callsign := "FDX12"
    origin_country := some "US"
    latitude := 19
    longitude := -99
    altitude := none
    velocity := none
    heading := none
    type := "carga"
    fetched_at := 0 }

def vCargo2 : Vuelo :=
  { vCargo1 with icao24 := "bbb222", callsign := "UPS7" }

/-- A commercial flight reported exactly on the ground (altitude 0). -/
def vAlt0 : Vuelo :=
  { vCargo1 with
    icao24 := "ccc333"
    callsign := "AAL1"
    type := "comercial"
    altitude := some 0 }

/-- A commercial flight below the default low-altitude threshold. -/
def vLow : Vuelo :=
  { vCargo1 with
    icao24 := "ddd444"
    callsign := "AAL2"
    type := "comercial"
    altitude := some 2000 }

/-- Config with only the cargo-entry rule enabled (reachable via
`POST /alerts/config`). -/
def cfg_cargo_only : AlertsConfig :=
  { initial_config with
    high_count_enabled := false
    low_altitude_enabled := false
    abnormal_speed_enabled := false }

def st_cargo : AppState :=
  { init_state with alerts_config := cfg_cargo_only }

/-- The i-th synthetic cargo flight for the history-bound scenario. -/
def mkCargoV (i : Nat) : Vuelo :=
  { vCargo1 with icao24 := "ic" ++ toString i, callsign := "FDX" ++ toString i }

/-- First batch: 100 distinct cargo flights. -/
def batchA : List Vuelo := (List.range 100).map mkCargoV

/-- Second batch: 50 further distinct cargo flights. -/
def batchB : List Vuelo := (List.range 50).map (fun i => mkCargoV (100 + i))

/-- Batch of 11 commercial flights for the high-count witness. -/
def batch11 : List Vuelo :=
  (List.range 11).map (fun i =>
    { vCargo1 with
      icao24 := "hc" ++ toString i
      callsign := "AAL" ++ toString i
      type := "comercial" })

/-- Raw state vectors for the malformed-batch scenario: two well-formed
17-field-style vectors around one 3-field vector. -/
def rawGood1 : List JVal :=
  [.str "abc123", .str "FDX12 ", .str "Mexico", .null, .num 1, .num (-99),
   .num 19, .num 2000, .null, .num 450, .num 180, .null]

def rawShort : List JVal := [.str "bad000", .str "XX", .str "YY"]

def rawGood2 : List JVal :=
  [.str "def456", .str "AAL20", .str "US", .null, .num 1, .num (-98),
   .num 20, .num 35000, .null, .num 460, .num 90, .null]

/-- Two same-aircraft records below the altitude threshold and above the speed
threshold, for the C9 witness. -/
def vDup1 : Vuelo :=
  { vCargo1 with altitude := some 1000, velocity := some 600 }

def vDup2 : Vuelo :=
  { vCargo1 with altitude := some 1500, velocity := some 700, callsign := "FDX13" }

/-- `Char.ofNat` round-trips on valid (small) code points. -/
theorem toNat_charOfNat {n : Nat} (h : n < 55296) : (Char.ofNat n).toNat = n := by
  rw [Char.ofNat, dif_pos (Or.inl h : n.isValidChar)]
  rfl

theorem upChar_toNat_of_lower {c : Char} (h : 97 ≤ c.toNat ∧ c.toNat ≤ 122) :
    (upChar c).toNat = c.toNat - 32 := by
  rw [upChar, if_pos h, toNat_charOfNat (by omega)]

theorem upChar_eq_of_not {c : Char} (h : ¬(97 ≤ c.toNat ∧ c.toNat ≤ 122)) :
    upChar c = c := by
  unfold upChar
  rw [if_neg h]

theorem upChar_idem (c : Char) : upChar (upChar c) = upChar c := by
  by_cases h : 97 ≤ c.toNat ∧ c.toNat ≤ 122
  · exact upChar_eq_of_not (by have := upChar_toNat_of_lower h; omega)
  · rw [upChar_eq_of_not h]
    exact upChar_eq_of_not h

theorem wsChar_upChar (c : Char) : wsChar (upChar c) = wsChar c := by
  by_cases h : 97 ≤ c.toNat ∧ c.toNat ≤ 122
  · have h2 := upChar_toNat_of_lower h
    have hA : wsChar (upChar c) = false := by
      simp only [wsChar, Bool.or_eq_false_iff, beq_eq_false_iff_ne, ne_eq]
      omega
    have hB : wsChar c = false := by
      simp only [wsChar, Bool.or_eq_false_iff, beq_eq_false_iff_ne, ne_eq]
      omega
    rw [hA, hB]
  · rw [upChar_eq_of_not h]

theorem dropWhile_rdropWhile_self {p : Char → Bool} {l : List Char}
    (h : l.dropWhile p = l) : (l.rdropWhile p).dropWhile p = l.rdropWhile p := by
  obtain ⟨t, ht⟩ := List.rdropWhile_prefix p l
  cases hr : l.rdropWhile p with
  | nil => rfl
  | cons b r =>
    rw [hr] at ht
    cases l with
    | nil => simp at hr
    | cons a l' =>
      have hb : b = a := by
        have := ht
        simp only [List.cons_append] at this
        exact (List.cons.injEq _ _ _ _ ▸ this).1
      have hpa : p a = false := by
        by_contra hpa
        rw [Bool.not_eq_false] at hpa
        rw [List.dropWhile_cons, if_pos hpa] at h
        have := (List.dropWhile_sublist (l := l') p).length_le
        have hlen := congrArg List.length h
        simp only [List.length_cons] at hlen
        omega
      rw [List.dropWhile_cons, hb, hpa]
      simp

theorem stripL_idem (l : List Char) : stripL (stripL l) = stripL l := by
  unfold stripL
  rw [dropWhile_rdropWhile_self (List.dropWhile_idempotent wsChar l),
    List.rdropWhile_idempotent]

theorem stripL_map_upChar (l : List Char) :
    stripL (l.map upChar) = (stripL l).map upChar := by
  have hfun : (wsChar ∘ upChar) = wsChar := funext wsChar_upChar
  unfold stripL List.rdropWhile
  rw [List.dropWhile_map, hfun, ← List.map_reverse, List.dropWhile_map, hfun,
    ← List.map_reverse]

theorem pyUpper_eq_empty_iff (s : String) : pyUpper s = "" ↔ s = "" := by
  constructor
  · intro h
    have : (s.data.map upChar) = [] := congrArg String.data h
    rcases s with ⟨d⟩
    cases d with
    | nil => rfl
    | cons a t => simp at this
  · intro h
    rw [h]; rfl

theorem pyStrip_pyStrip (s : String) : pyStrip (pyStrip s) = pyStrip s := by
  show String.mk (stripL (stripL s.data)) = String.mk (stripL s.data)
  rw [stripL_idem]

theorem pyUpper_pyStrip_pyUpper (s : String) :
    pyUpper (pyStrip (pyUpper s)) = pyUpper (pyStrip s) := by
  show String.mk ((stripL (s.data.map upChar)).map upChar)
      = String.mk ((stripL s.data).map upChar)
  rw [stripL_map_upChar, List.map_map]
  congr 1
  apply List.map_congr_left
  intro c _
  exact upChar_idem c

/-! ## Structural lemmas about the alert engine -/

theorem lastN_eq_self {n : Nat} {l : List α} (h : l.length ≤ n) : lastN n l = l := by
  unfold lastN
  rw [Nat.sub_eq_zero_of_le h, List.drop_zero]

theorem lastN_length (n : Nat) (l : List α) :
    (lastN n l).length = l.length - (l.length - n) := by
  unfold lastN
  rw [List.length_drop]

theorem countType_append (t : String) (l1 l2 : List Alert) :
    countType t (l1 ++ l2) = countType t l1 + countType t l2 := by
  simp [countType, List.filter_append]

theorem countCargoFor_append (x : String) (l1 l2 : List Alert) :
    countCargoFor x (l1 ++ l2) = countCargoFor x l1 + countCargoFor x l2 := by
  simp [countCargoFor, List.filter_append]

theorem countType_eq_zero {t : String} {l : List Alert}
    (h : ∀ a ∈ l, a.type ≠ t) : countType t l = 0 := by
  simp only [countType, List.length_eq_zero, List.filter_eq_nil_iff]
  intro a ha
  simpa using h a ha

theorem countType_eq_length {t : String} {l : List Alert}
    (h : ∀ a ∈ l, a.type = t) : countType t l = l.length := by
  unfold countType
  rw [List.filter_eq_self.mpr]
  intro a ha
  simpa using h a ha

theorem countCargoFor_eq_zero_of_types {x : String} {l : List Alert}
    (h : ∀ a ∈ l, a.type ≠ "cargo_entry") : countCargoFor x l = 0 := by
  simp only [countCargoFor, List.length_eq_zero, List.filter_eq_nil_iff]
  intro a ha
  simp [h a ha]

theorem countCargoFor_cons (x : String) (a : Alert) (l : List Alert) :
    countCargoFor x (a :: l) =
      (if a.type = "cargo_entry" ∧ a.flight_data.icao24 = some x then 1 else 0) +
        countCargoFor x l := by
  simp only [countCargoFor, List.filter_cons]
  by_cases h : a.type = "cargo_entry" ∧ a.flight_data.icao24 = some x
  · rw [if_pos h]
    have : (a.type == "cargo_entry" && a.flight_data.icao24 == some x) = true := by
      simp [h.1, h.2]
    simp [this, Nat.add_comm]
  · rw [if_neg h]
    have : (a.type == "cargo_entry" && a.flight_data.icao24 == some x) = false := by
      rcases not_and_or.mp h with h1 | h2
      · simp [h1]
      · simp [h2]
    simp [this]

theorem cargo_entry_pass_types (clock : Nat → Nat) (vs : List Vuelo) :
    ∀ seen k, ∀ a ∈ (cargo_entry_pass clock vs seen k).1,
      a.type = "cargo_entry" ∧ a.severity = "warning" := by
  induction vs with
  | nil =>
    intro seen k a ha
    simp [cargo_entry_pass] at ha
  | cons v vs ih =>
    intro seen k a ha
    simp only [cargo_entry_pass] at ha
    split at ha
    · rcases List.mem_cons.mp ha with rfl | h
      · exact ⟨rfl, rfl⟩
      · exact ih _ _ a h
    · exact ih _ _ a ha

theorem cargo_entry_pass_seen_mono (clock : Nat → Nat) (vs : List Vuelo) :
    ∀ seen k y, y ∈ seen → y ∈ (cargo_entry_pass clock vs seen k).2.1 := by
  induction vs with
  | nil =>
    intro seen k y hy
    simpa [cargo_entry_pass] using hy
  | cons v vs ih =>
    intro seen k y hy
    simp only [cargo_entry_pass]
    split
    · exact ih _ _ y (List.mem_append_left _ hy)
    · exact ih _ _ y hy

theorem cargo_entry_pass_count_mem (clock : Nat → Nat) (vs : List Vuelo) :
    ∀ seen k x, x ∈ seen →
      countCargoFor x (cargo_entry_pass clock vs seen k).1 = 0 := by
  induction vs with
  | nil =>
    intro seen k x _
    simp [cargo_entry_pass, countCargoFor]
  | cons v vs ih =>
    intro seen k x hx
    simp only [cargo_entry_pass]
    split
    · next hcond =>
      rw [countCargoFor_cons, if_neg, ih _ _ x (List.mem_append_left _ hx)]
      intro hcontra
      have : v.icao24 = x := by
        have := hcontra.2
        simpa [cargo_alert] using this
      exact hcond.2 (this ▸ hx)
    · exact ih _ _ x hx

theorem cargo_entry_pass_count_new (clock : Nat → Nat) (vs : List Vuelo) :
    ∀ seen k x, x ∉ seen → (∃ v ∈ vs, v.type = "carga" ∧ v.icao24 = x) →
      countCargoFor x (cargo_entry_pass clock vs seen k).1 = 1 ∧
        x ∈ (cargo_entry_pass clock vs seen k).2.1 := by
  induction vs with
  | nil =>
    intro seen k x _ hex
    rcases hex with ⟨v, hv, _⟩
    simp at hv
  | cons v vs ih =>
    intro seen k x hx hex
    simp only [cargo_entry_pass]
    by_cases hcond : v.type = "carga" ∧ v.icao24 ∉ seen
    · rw [if_pos hcond]
      by_cases hvx : v.icao24 = x
      · constructor
        · rw [countCargoFor_cons, if_pos ⟨rfl, by simp [cargo_alert, hvx]⟩,
            cargo_entry_pass_count_mem clock vs _ _ x
              (List.mem_append_right _ (hvx ▸ List.mem_singleton_self _))]
        · exact cargo_entry_pass_seen_mono clock vs _ _ x
            (List.mem_append_right _ (hvx ▸ List.mem_singleton_self _))
      · have hex' : ∃ w ∈ vs, w.type = "carga" ∧ w.icao24 = x := by
          rcases hex with ⟨w, hw, hwt, hwx⟩
          rcases List.mem_cons.mp hw with rfl | hw'
          · exact absurd hwx hvx
          · exact ⟨w, hw', hwt, hwx⟩
        have hx' : x ∉ seen ++ [v.icao24] := by
          intro hmem
          rcases List.mem_append.mp hmem with h1 | h2
          · exact hx h1
          · exact hvx (List.mem_singleton.mp h2).symm
        have := ih (seen ++ [v.icao24]) (k + 2) x hx' hex'
        constructor
        · rw [countCargoFor_cons, if_neg, this.1]
          intro hcontra
          exact hvx (by simpa [cargo_alert] using hcontra.2)
        · exact this.2
    · rw [if_neg hcond]
      have hex' : ∃ w ∈ vs, w.type = "carga" ∧ w.icao24 = x := by
        rcases hex with ⟨w, hw, hwt, hwx⟩
        rcases List.mem_cons.mp hw with rfl | hw'
        · rcases not_and_or.mp hcond with h1 | h2
          · exact absurd hwt h1
          · exact absurd (hwx ▸ not_not.mp h2) hx
        · exact ⟨w, hw', hwt, hwx⟩
      exact ih seen k x hx hex'

theorem low_altitude_pass_types (clock : Nat → Nat) (cfg : AlertsConfig)
    (hist : List Alert) (vs : List Vuelo) :
    ∀ k, ∀ a ∈ (low_altitude_pass clock cfg hist vs k).1,
      a.type = "low_altitude" ∧ a.severity = "danger" := by
  induction vs with
  | nil =>
    intro k a ha
    simp [low_altitude_pass] at ha
  | cons v vs ih =>
    intro k a ha
    simp only [low_altitude_pass] at ha
    split at ha
    · split at ha
      · exact ih _ a ha
      · rcases List.mem_cons.mp ha with rfl | h
        · exact ⟨rfl, rfl⟩
        · exact ih _ a h
    · exact ih _ a ha

theorem low_altitude_pass_length (clock : Nat → Nat) (cfg : AlertsConfig)
    (hist : List Alert) (vs : List Vuelo) :
    ∀ k, (low_altitude_pass clock cfg hist vs k).1.length =
      (vs.filter (fun v => lowTrig cfg v && !(lowSuppressed hist v))).length := by
  induction vs with
  | nil =>
    intro k
    simp [low_altitude_pass]
  | cons v vs ih =>
    intro k
    simp only [low_altitude_pass, List.filter_cons]
    by_cases htrig : lowTrig cfg v
    · rw [if_pos htrig]
      by_cases hsup : lowSuppressed hist v
      · simp only [htrig, hsup, if_pos, Bool.not_true, Bool.and_false]
        rw [if_neg (by simp)]
        exact ih _
      · have hb : (lowTrig cfg v && !lowSuppressed hist v) = true := by
          simp [htrig, hsup]
        rw [if_neg (by simp [hsup]), hb]
        simp only [if_true, List.length_cons]
        rw [ih _]
    · rw [if_neg htrig]
      have hb : (lowTrig cfg v && !lowSuppressed hist v) = false := by
        simp [htrig]
      rw [hb]
      simp only [Bool.false_eq_true, if_false]
      exact ih _

theorem abnormal_speed_pass_types (clock : Nat → Nat) (cfg : AlertsConfig)
    (hist : List Alert) (vs : List Vuelo) :
    ∀ k, ∀ a ∈ (abnormal_speed_pass clock cfg hist vs k).1,
      a.type = "abnormal_speed" ∧ a.severity = "warning" := by
  induction vs with
  | nil =>
    intro k a ha
    simp [abnormal_speed_pass] at ha
  | cons v vs ih =>
    intro k a ha
    simp only [abnormal_speed_pass] at ha
    split at ha
    · split at ha
      · exact ih _ a ha
      · rcases List.mem_cons.mp ha with rfl | h
        · exact ⟨rfl, rfl⟩
        · exact ih _ a h
    · exact ih _ a ha

theorem highStage_types (clock : Nat → Nat) (vuelos : List Vuelo) (s : AppState)
    (k : Nat) : ∀ a ∈ (highStage clock vuelos s k).1,
      a.type = "high_count" ∧ a.severity = "info" := by
  intro a ha
  simp only [highStage] at ha
  split at ha
  · split at ha
    · simp at ha
    · rcases List.mem_singleton.mp ha with rfl
      exact ⟨rfl, rfl⟩
  · simp at ha

theorem highStage_count (clock : Nat → Nat) (vuelos : List Vuelo) (s : AppState)
    (k : Nat) (hen : s.alerts_config.high_count_enabled = true) :
    countType "high_count" (highStage clock vuelos s k).1 =
      if (vuelos.length : Int) > s.alerts_config.high_count_threshold ∧
          (lastN 5 s.alerts_history).any (fun a => a.type == "high_count") = false
        then 1 else 0 := by
  simp only [highStage, hen, true_and]
  by_cases hgt : (vuelos.length : Int) > s.alerts_config.high_count_threshold
  · rw [if_pos hgt]
    by_cases hsup : (lastN 5 s.alerts_history).any (fun a => a.type == "high_count") = true
    · rw [if_pos hsup, if_neg (by simp [hsup])]
      simp [countType]
    · have hsup' : (lastN 5 s.alerts_history).any (fun a => a.type == "high_count") = false := by
        simpa using hsup
      rw [if_neg (by simp [hsup']), if_pos ⟨hgt, hsup'⟩]
      simp [countType, high_count_alert]
  · rw [if_neg hgt, if_neg (by intro h; exact hgt h.1)]
    simp [countType]

theorem check_alerts_fst (clock : Nat → Nat) (vuelos : List Vuelo) (s : AppState) :
    (check_alerts clock vuelos s).1 = newAlerts clock vuelos s := rfl

theorem check_alerts_seen (clock : Nat → Nat) (vuelos : List Vuelo) (s : AppState) :
    (check_alerts clock vuelos s).2.seen_cargo_flights =
      (cargoStage clock vuelos s).2.1 := rfl

theorem check_alerts_hist (clock : Nat → Nat) (vuelos : List Vuelo) (s : AppState) :
    (check_alerts clock vuelos s).2.alerts_history =
      lastN 100 (s.alerts_history ++ (check_alerts clock vuelos s).1) := by
  rw [check_alerts_fst]
  show (if (s.alerts_history ++ newAlerts clock vuelos s).length > 100
      then lastN 100 (s.alerts_history ++ newAlerts clock vuelos s)
      else s.alerts_history ++ newAlerts clock vuelos s) = _
  split
  · rfl
  · next h =>
    rw [lastN_eq_self (by omega)]

theorem newAlerts_decomp (clock : Nat → Nat) (vuelos : List Vuelo) (s : AppState) :
    newAlerts clock vuelos s =
      (cargoStage clock vuelos s).1 ++
        (highStage clock vuelos s (cargoStage clock vuelos s).2.2).1 ++
        (lowStage clock vuelos s
          (highStage clock vuelos s (cargoStage clock vuelos s).2.2).2).1 ++
        (speedStage clock vuelos s
          (lowStage clock vuelos s
            (highStage clock vuelos s (cargoStage clock vuelos s).2.2).2).2).1 := rfl

theorem cargoStage_types (clock : Nat → Nat) (vuelos : List Vuelo) (s : AppState) :
    ∀ a ∈ (cargoStage clock vuelos s).1,
      a.type = "cargo_entry" ∧ a.severity = "warning" := by
  intro a ha
  simp only [cargoStage] at ha
  split at ha
  · exact cargo_entry_pass_types _ _ _ _ a ha
  · simp at ha

theorem lowStage_types (clock : Nat → Nat) (vuelos : List Vuelo) (s : AppState)
    (k : Nat) : ∀ a ∈ (lowStage clock vuelos s k).1,
      a.type = "low_altitude" ∧ a.severity = "danger" := by
  intro a ha
  simp only [lowStage] at ha
  split at ha
  · exact low_altitude_pass_types _ _ _ _ _ a ha
  · simp at ha

theorem speedStage_types (clock : Nat → Nat) (vuelos : List Vuelo) (s : AppState)
    (k : Nat) : ∀ a ∈ (speedStage clock vuelos s k).1,
      a.type = "abnormal_speed" ∧ a.severity = "warning" := by
  intro a ha
  simp only [speedStage] at ha
  split at ha
  · exact abnormal_speed_pass_types _ _ _ _ _ a ha
  · simp at ha

/-- Every alert of a pass is one of the four rule types, with the severity the
source hard-codes for that rule. -/
theorem newAlerts_mem (clock : Nat → Nat) (vuelos : List Vuelo) (s : AppState)
    {a : Alert} (ha : a ∈ newAlerts clock vuelos s) :
    (a.type = "cargo_entry" ∧ a.severity = "warning") ∨
      (a.type = "high_count" ∧ a.severity = "info") ∨
      (a.type = "low_altitude" ∧ a.severity = "danger") ∨
      (a.type = "abnormal_speed" ∧ a.severity = "warning") := by
  rw [newAlerts_decomp] at ha
  rcases List.mem_append.mp ha with h3 | hsp
  · rcases List.mem_append.mp h3 with h2 | hlo
    · rcases List.mem_append.mp h2 with hca | hhi
      · exact Or.inl (cargoStage_types _ _ _ a hca)
      · exact Or.inr (Or.inl (highStage_types _ _ _ _ a hhi))
    · exact Or.inr (Or.inr (Or.inl (lowStage_types _ _ _ _ a hlo)))
  · exact Or.inr (Or.inr (Or.inr (speedStage_types _ _ _ _ a hsp)))

theorem countCargoFor_highStage (clock : Nat → Nat) (vuelos : List Vuelo)
    (s : AppState) (k : Nat) (x : String) :
    countCargoFor x (highStage clock vuelos s k).1 = 0 :=
  countCargoFor_eq_zero_of_types (fun a ha => by
    rw [(highStage_types clock vuelos s k a ha).1]; decide)

theorem countCargoFor_lowStage (clock : Nat → Nat) (vuelos : List Vuelo)
    (s : AppState) (k : Nat) (x : String) :
    countCargoFor x (lowStage clock vuelos s k).1 = 0 :=
  countCargoFor_eq_zero_of_types (fun a ha => by
    rw [(lowStage_types clock vuelos s k a ha).1]; decide)

theorem countCargoFor_speedStage (clock : Nat → Nat) (vuelos : List Vuelo)
    (s : AppState) (k : Nat) (x : String) :
    countCargoFor x (speedStage clock vuelos s k).1 = 0 :=
  countCargoFor_eq_zero_of_types (fun a ha => by
    rw [(speedStage_types clock vuelos s k a ha).1]; decide)

/-- A first sighting of a cargo aircraft yields exactly one `cargo_entry`
alert for it in the pass and marks it seen. -/
theorem check_cargo_new (clock : Nat → Nat) (vuelos : List Vuelo) (s : AppState)
    (x : String) (hen : s.alerts_config.cargo_entry_enabled = true)
    (hx : x ∉ s.seen_cargo_flights)
    (hex : ∃ v ∈ vuelos, v.type = "carga" ∧ v.icao24 = x) :
    countCargoFor x (check_alerts clock vuelos s).1 = 1 ∧
      x ∈ (check_alerts clock vuelos s).2.seen_cargo_flights := by
  have hc : cargoStage clock vuelos s =
      cargo_entry_pass clock vuelos s.seen_cargo_flights 0 := by
    simp [cargoStage, hen]
  have hmain := cargo_entry_pass_count_new clock vuelos s.seen_cargo_flights 0 x hx hex
  constructor
  · rw [check_alerts_fst, newAlerts_decomp, countCargoFor_append,
      countCargoFor_append, countCargoFor_append, countCargoFor_highStage,
      countCargoFor_lowStage, countCargoFor_speedStage, hc, hmain.1]
  · rw [check_alerts_seen, hc]
    exact hmain.2

/-- An already-seen cargo aircraft yields no `cargo_entry` alert. -/
theorem check_cargo_seen_zero (clock : Nat → Nat) (vuelos : List Vuelo)
    (s : AppState) (x : String) (hx : x ∈ s.seen_cargo_flights) :
    countCargoFor x (check_alerts clock vuelos s).1 = 0 := by
  have hzero : countCargoFor x (cargoStage clock vuelos s).1 = 0 := by
    simp only [cargoStage]
    split
    · exact cargo_entry_pass_count_mem clock vuelos _ _ x hx
    · simp [countCargoFor]
  rw [check_alerts_fst, newAlerts_decomp, countCargoFor_append,
    countCargoFor_append, countCargoFor_append, countCargoFor_highStage,
    countCargoFor_lowStage, countCargoFor_speedStage, hzero]

/-- The seen-cargo set only grows during a pass. -/
theorem check_seen_mono (clock : Nat → Nat) (vuelos : List Vuelo) (s : AppState)
    (x : String) (hx : x ∈ s.seen_cargo_flights) :
    x ∈ (check_alerts clock vuelos s).2.seen_cargo_flights := by
  rw [check_alerts_seen]
  simp only [cargoStage]
  split
  · exact cargo_entry_pass_seen_mono clock vuelos _ _ x hx
  · exact hx

theorem countType_low_cargoStage (clock : Nat → Nat) (vuelos : List Vuelo)
    (s : AppState) : countType "low_altitude" (cargoStage clock vuelos s).1 = 0 :=
  countType_eq_zero (fun a ha => by
    rw [(cargoStage_types clock vuelos s a ha).1]; decide)

theorem countType_low_highStage (clock : Nat → Nat) (vuelos : List Vuelo)
    (s : AppState) (k : Nat) :
    countType "low_altitude" (highStage clock vuelos s k).1 = 0 :=
  countType_eq_zero (fun a ha => by
    rw [(highStage_types clock vuelos s k a ha).1]; decide)

theorem countType_low_speedStage (clock : Nat → Nat) (vuelos : List Vuelo)
    (s : AppState) (k : Nat) :
    countType "low_altitude" (speedStage clock vuelos s k).1 = 0 :=
  countType_eq_zero (fun a ha => by
    rw [(speedStage_types clock vuelos s k a ha).1]; decide)

/-- When enabled, the low-altitude rule contributes one alert per triggering,
non-suppressed record of the batch — counted per record, not per aircraft. -/
theorem check_low_count (clock : Nat → Nat) (vuelos : List Vuelo) (s : AppState)
    (hen : s.alerts_config.low_altitude_enabled = true) :
    countType "low_altitude" (check_alerts clock vuelos s).1 =
      (vuelos.filter (fun v => lowTrig s.alerts_config v &&
        !(lowSuppressed s.alerts_history v))).length := by
  have hlo : ∀ k, countType "low_altitude" (lowStage clock vuelos s k).1 =
      (vuelos.filter (fun v => lowTrig s.alerts_config v &&
        !(lowSuppressed s.alerts_history v))).length := by
    intro k
    have hall := lowStage_types clock vuelos s k
    rw [countType_eq_length (fun a ha => (hall a ha).1)]
    simp only [lowStage, hen, if_true]
    exact low_altitude_pass_length clock s.alerts_config s.alerts_history vuelos k
  rw [check_alerts_fst, newAlerts_decomp, countType_append, countType_append,
    countType_append, countType_low_cargoStage, countType_low_highStage,
    countType_low_speedStage, hlo]
  omega

theorem countType_high_cargoStage (clock : Nat → Nat) (vuelos : List Vuelo)
    (s : AppState) : countType "high_count" (cargoStage clock vuelos s).1 = 0 :=
  countType_eq_zero (fun a ha => by
    rw [(cargoStage_types clock vuelos s a ha).1]; decide)

theorem countType_high_lowStage (clock : Nat → Nat) (vuelos : List Vuelo)
    (s : AppState) (k : Nat) :
    countType "high_count" (lowStage clock vuelos s k).1 = 0 :=
  countType_eq_zero (fun a ha => by
    rw [(lowStage_types clock vuelos s k a ha).1]; decide)

theorem countType_high_speedStage (clock : Nat → Nat) (vuelos : List Vuelo)
    (s : AppState) (k : Nat) :
    countType "high_count" (speedStage clock vuelos s k).1 = 0 :=
  countType_eq_zero (fun a ha => by
    rw [(speedStage_types clock vuelos s k a ha).1]; decide)

/-- When enabled, the high-count rule contributes exactly one alert iff the
batch exceeds the threshold and no `high_count` alert sits in the last 5
pre-pass history entries. -/
theorem check_high_count (clock : Nat → Nat) (vuelos : List Vuelo) (s : AppState)
    (hen : s.alerts_config.high_count_enabled = true) :
    countType "high_count" (check_alerts clock vuelos s).1 =
      if (vuelos.length : Int) > s.alerts_config.high_count_threshold ∧
          (lastN 5 s.alerts_history).any (fun a => a.type == "high_count") = false
        then 1 else 0 := by
  rw [check_alerts_fst, newAlerts_decomp, countType_append, countType_append,
    countType_append, countType_high_cargoStage, countType_high_lowStage,
    countType_high_speedStage, highStage_count clock vuelos s _ hen]
  omega

/-! ## Claims -/

/-- C10: a `check_alerts` pass mutates only the alert history and the
seen-cargo set: the alert configuration and the token cache components of the
global state are returned unchanged for every batch and prior state (the input
batch and its records are immutable values in this embedding). -/
theorem C10_check_alerts_frame (clock : Nat → Nat) (vuelos : List Vuelo)
    (s : AppState) :
    (check_alerts clock vuelos s).2.alerts_config = s.alerts_config ∧
      (check_alerts clock vuelos s).2.token_cache = s.token_cache :=
  ⟨rfl, rfl⟩

set_option maxRecDepth 4000 in
/-- C6: after every `check_alerts` call the history equals the most recent 100
entries of the previous history extended with the pass's new alerts (oldest
evicted first), hence has length at most 100; concretely, two passes emitting
100 and then 50 alerts (150 in total) leave a history of exactly the 100 most
recent ones. -/
theorem C6_history_bound (clock : Nat → Nat) (vuelos : List Vuelo) (s : AppState) :
    ((check_alerts clock vuelos s).2.alerts_history =
        lastN 100 (s.alerts_history ++ (check_alerts clock vuelos s).1) ∧
      (check_alerts clock vuelos s).2.alerts_history.length ≤ 100) ∧
    ((check_alerts (constClock 0) batchA st_cargo).1.length = 100 ∧
      (check_alerts (constClock 0) batchB
        (check_alerts (constClock 0) batchA st_cargo).2).1.length = 50 ∧
      (check_alerts (constClock 0) batchB
        (check_alerts (constClock 0) batchA st_cargo).2).2.alerts_history.length = 100 ∧
      (check_alerts (constClock 0) batchB
          (check_alerts (constClock 0) batchA st_cargo).2).2.alerts_history =
        lastN 100 ((check_alerts (constClock 0) batchA st_cargo).1 ++
          (check_alerts (constClock 0) batchB
            (check_alerts (constClock 0) batchA st_cargo).2).1)) := by
  refine ⟨⟨check_alerts_hist clock vuelos s, ?_⟩, ?_⟩
  · rw [check_alerts_hist clock vuelos s, lastN_length]
    omega
  · have hA : (check_alerts (constClock 0) batchA st_cargo).1.length = 100 := by decide
    have hB : (check_alerts (constClock 0) batchB
        (check_alerts (constClock 0) batchA st_cargo).2).1.length = 50 := by decide
    have h1 := check_alerts_hist (constClock 0) batchA st_cargo
    have e0 : st_cargo.alerts_history = [] := rfl
    rw [e0, List.nil_append, lastN_eq_self (le_of_eq hA)] at h1
    have h2 := check_alerts_hist (constClock 0) batchB
      (check_alerts (constClock 0) batchA st_cargo).2
    rw [h1] at h2
    refine ⟨hA, hB, ?_, h2⟩
    rw [h2, lastN_length, List.length_append, hA, hB]

/-- C2: when the cargo-entry rule is enabled, the first pass containing a
cargo record whose `icao24` is not yet in the seen-cargo set emits exactly one
`cargo_entry` alert for it (severity `warning`, third conjunct) and marks it
seen; any pass starting with the `icao24` already seen emits none for it and
keeps it seen (so every later pass is covered); `clear_alerts` empties the
history and the seen set together, after which the same aircraft alerts
again. -/
theorem C2_cargo_entry_once (clock : Nat → Nat) (vuelos : List Vuelo)
    (s : AppState) (x : String) :
    (s.alerts_config.cargo_entry_enabled = true →
      x ∉ s.seen_cargo_flights →
      (∃ v ∈ vuelos, v.type = "carga" ∧ v.icao24 = x) →
      countCargoFor x (check_alerts clock vuelos s).1 = 1 ∧
        x ∈ (check_alerts clock vuelos s).2.seen_cargo_flights) ∧
    (x ∈ s.seen_cargo_flights →
      countCargoFor x (check_alerts clock vuelos s).1 = 0 ∧
        x ∈ (check_alerts clock vuelos s).2.seen_cargo_flights) ∧
    (∀ a ∈ (check_alerts clock vuelos s).1,
      a.type = "cargo_entry" → a.severity = "warning") ∧
    ((clear_alerts s).alerts_history = [] ∧
      (clear_alerts s).seen_cargo_flights = []) ∧
    (s.alerts_config.cargo_entry_enabled = true →
      (∃ v ∈ vuelos, v.type = "carga" ∧ v.icao24 = x) →
      countCargoFor x (check_alerts clock vuelos (clear_alerts s)).1 = 1) := by
  refine ⟨?_, ?_, ?_, ⟨rfl, rfl⟩, ?_⟩
  · intro hen hx hex
    exact check_cargo_new clock vuelos s x hen hx hex
  · intro hx
    exact ⟨check_cargo_seen_zero clock vuelos s x hx,
      check_seen_mono clock vuelos s x hx⟩
  · intro a ha h
    rcases newAlerts_mem clock vuelos s ha with h1 | h2 | h3 | h4
    · exact h1.2
    · rw [h] at h2
      exact absurd h2.1 (by decide)
    · rw [h] at h3
      exact absurd h3.1 (by decide)
    · exact h4.2
  · intro hen hex
    exact (check_cargo_new clock vuelos (clear_alerts s) x hen
      (List.not_mem_nil x) hex).1

/-- Witness for C2 at a concrete first sighting. -/
theorem C2_cargo_entry_once_witness :
    countCargoFor "aaa111" (check_alerts (constClock 5) [vCargo1] init_state).1 = 1 ∧
      "aaa111" ∈ (check_alerts (constClock 5) [vCargo1] init_state).2.seen_cargo_flights :=
  (C2_cargo_entry_once (constClock 5) [vCargo1] init_state "aaa111").1
    rfl (by decide) ⟨vCargo1, by decide, rfl, rfl⟩

/-- C3 counterexample: a record with non-null altitude `0`, strictly below the
enabled threshold 3000 and with an empty history (so nothing is suppressed),
yields no alert at all — Python's truthiness test `vuelo.get("altitude")`
discards altitude `0` before the comparison, contradicting the claim's
"non-null altitude strictly less than the threshold". -/
theorem C3_counterexample :
    vAlt0.altitude = some 0 ∧
      ((0 : Int) < init_state.alerts_config.low_altitude_threshold) ∧
      init_state.alerts_config.low_altitude_enabled = true ∧
      init_state.alerts_history = [] ∧
      (check_alerts (constClock 0) [vAlt0] init_state).1 = [] := by
  decide

/-- C3 (amended): when the low-altitude rule is enabled, the pass emits one
`danger` alert per record whose altitude is truthy (non-null *and non-zero*)
and strictly below the threshold and whose `icao24` has no `low_altitude`
alert among the last 10 pre-pass history entries. -/
theorem C3_low_altitude_rule (clock : Nat → Nat) (vuelos : List Vuelo)
    (s : AppState) (hen : s.alerts_config.low_altitude_enabled = true) :
    countType "low_altitude" (check_alerts clock vuelos s).1 =
      (vuelos.filter (fun v => lowTrig s.alerts_config v &&
        !(lowSuppressed s.alerts_history v))).length ∧
    ∀ a ∈ (check_alerts clock vuelos s).1,
      a.type = "low_altitude" → a.severity = "danger" := by
  refine ⟨check_low_count clock vuelos s hen, ?_⟩
  intro a ha h
  rcases newAlerts_mem clock vuelos s ha with h1 | h2 | h3 | h4
  · rw [h] at h1
    exact absurd h1.1 (by decide)
  · rw [h] at h2
    exact absurd h2.1 (by decide)
  · exact h3.2
  · rw [h] at h4
    exact absurd h4.1 (by decide)

/-- Witness for C3: one triggering record below the threshold. -/
theorem C3_low_altitude_rule_witness :
    countType "low_altitude" (check_alerts (constClock 0) [vLow] init_state).1 = 1 := by
  have h := (C3_low_altitude_rule (constClock 0) [vLow] init_state rfl).1
  rw [h]
  decide

/-- C5: when the high-count rule is enabled, a pass emits exactly one
`high_count` alert (severity `info`) iff the batch length strictly exceeds the
threshold and none of the last 5 pre-pass history entries is a `high_count`
alert, and zero otherwise. -/
theorem C5_high_count_rule (clock : Nat → Nat) (vuelos : List Vuelo)
    (s : AppState) (hen : s.alerts_config.high_count_enabled = true) :
    countType "high_count" (check_alerts clock vuelos s).1 =
      (if (vuelos.length : Int) > s.alerts_config.high_count_threshold ∧
          (lastN 5 s.alerts_history).any (fun a => a.type == "high_count") = false
        then 1 else 0) ∧
    ∀ a ∈ (check_alerts clock vuelos s).1,
      a.type = "high_count" → a.severity = "info" := by
  refine ⟨check_high_count clock vuelos s hen, ?_⟩
  intro a ha h
  rcases newAlerts_mem clock vuelos s ha with h1 | h2 | h3 | h4
  · rw [h] at h1
    exact absurd h1.1 (by decide)
  · exact h2.2
  · rw [h] at h3
    exact absurd h3.1 (by decide)
  · rw [h] at h4
    exact absurd h4.1 (by decide)

/-- Witness for C5: 11 flights against the default threshold 10 with empty
history yield exactly one `high_count` alert. -/
theorem C5_high_count_rule_witness :
    countType "high_count" (check_alerts (constClock 0) batch11 init_state).1 = 1 := by
  have h := (C5_high_count_rule (constClock 0) batch11 init_state rfl).1
  rw [h]
  decide

theorem abnormal_speed_pass_length (clock : Nat → Nat) (cfg : AlertsConfig)
    (hist : List Alert) (vs : List Vuelo) :
    ∀ k, (abnormal_speed_pass clock cfg hist vs k).1.length =
      (vs.filter (fun v => speedTrig cfg v && !(speedSuppressed hist v))).length := by
  induction vs with
  | nil =>
    intro k
    simp [abnormal_speed_pass]
  | cons v vs ih =>
    intro k
    simp only [abnormal_speed_pass, List.filter_cons]
    by_cases htrig : speedTrig cfg v
    · rw [if_pos htrig]
      by_cases hsup : speedSuppressed hist v
      · simp only [htrig, hsup, if_pos, Bool.not_true, Bool.and_false]
        rw [if_neg (by simp)]
        exact ih _
      · have hb : (speedTrig cfg v && !speedSuppressed hist v) = true := by
          simp [htrig, hsup]
        rw [if_neg (by simp [hsup]), hb]
        simp only [if_true, List.length_cons]
        rw [ih _]
    · rw [if_neg htrig]
      have hb : (speedTrig cfg v && !speedSuppressed hist v) = false := by
        simp [htrig]
      rw [hb]
      simp only [Bool.false_eq_true, if_false]
      exact ih _

theorem countType_speed_cargoStage (clock : Nat → Nat) (vuelos : List Vuelo)
    (s : AppState) :
    countType "abnormal_speed" (cargoStage clock vuelos s).1 = 0 :=
  countType_eq_zero (fun a ha => by
    rw [(cargoStage_types clock vuelos s a ha).1]; decide)

theorem countType_speed_highStage (clock : Nat → Nat) (vuelos : List Vuelo)
    (s : AppState) (k : Nat) :
    countType "abnormal_speed" (highStage clock vuelos s k).1 = 0 :=
  countType_eq_zero (fun a ha => by
    rw [(highStage_types clock vuelos s k a ha).1]; decide)

theorem countType_speed_lowStage (clock : Nat → Nat) (vuelos : List Vuelo)
    (s : AppState) (k : Nat) :
    countType "abnormal_speed" (lowStage clock vuelos s k).1 = 0 :=
  countType_eq_zero (fun a ha => by
    rw [(lowStage_types clock vuelos s k a ha).1]; decide)

/-- When enabled, the abnormal-speed rule contributes one alert per
triggering, non-suppressed record of the batch — counted per record, not per
aircraft, against the pre-pass last-10 window. -/
theorem check_speed_count (clock : Nat → Nat) (vuelos : List Vuelo)
    (s : AppState) (hen : s.alerts_config.abnormal_speed_enabled = true) :
    countType "abnormal_speed" (check_alerts clock vuelos s).1 =
      (vuelos.filter (fun v => speedTrig s.alerts_config v &&
        !(speedSuppressed s.alerts_history v))).length := by
  have hsp : ∀ k, countType "abnormal_speed" (speedStage clock vuelos s k).1 =
      (vuelos.filter (fun v => speedTrig s.alerts_config v &&
        !(speedSuppressed s.alerts_history v))).length := by
    intro k
    have hall := speedStage_types clock vuelos s k
    rw [countType_eq_length (fun a ha => (hall a ha).1)]
    simp only [speedStage, hen, if_true]
    exact abnormal_speed_pass_length clock s.alerts_config s.alerts_history vuelos k
  rw [check_alerts_fst, newAlerts_decomp, countType_append, countType_append,
    countType_append, countType_speed_cargoStage, countType_speed_highStage,
    countType_speed_lowStage, hsp]
  omega

/-- C9: the last-10 dedup windows of `low_altitude` and `abnormal_speed` are
checked only against the history as it was before the pass (new alerts are
appended after all rules run), so two records of the same batch sharing an
`icao24` and both violating the altitude threshold — and likewise both
violating the speed threshold — each produce their own alert; by contrast
`cargo_entry` dedups intra-batch because the seen-cargo set is updated as each
record is processed. -/
theorem C9_intra_batch_dedup (clock : Nat → Nat) (s : AppState) (v1 v2 : Vuelo)
    (hen_low : s.alerts_config.low_altitude_enabled = true)
    (hen_speed : s.alerts_config.abnormal_speed_enabled = true)
    (hen_cargo : s.alerts_config.cargo_entry_enabled = true)
    (hicao : v2.icao24 = v1.icao24)
    (ht1 : v1.type = "carga") (_ht2 : v2.type = "carga")
    (hl1 : lowTrig s.alerts_config v1 = true)
    (hl2 : lowTrig s.alerts_config v2 = true)
    (hs1 : speedTrig s.alerts_config v1 = true)
    (hs2 : speedTrig s.alerts_config v2 = true)
    (hseen : v1.icao24 ∉ s.seen_cargo_flights)
    (hsupLow : lowSuppressed s.alerts_history v1 = false)
    (hsupSpeed : speedSuppressed s.alerts_history v1 = false) :
    countType "low_altitude" (check_alerts clock [v1, v2] s).1 = 2 ∧
      countType "abnormal_speed" (check_alerts clock [v1, v2] s).1 = 2 ∧
      countCargoFor v1.icao24 (check_alerts clock [v1, v2] s).1 = 1 := by
  refine ⟨?_, ?_, ?_⟩
  · rw [check_low_count clock [v1, v2] s hen_low]
    have hsup2 : lowSuppressed s.alerts_history v2 = false := by
      unfold lowSuppressed at hsupLow ⊢
      rw [hicao]
      exact hsupLow
    simp [List.filter_cons, hl1, hl2, hsupLow, hsup2]
  · rw [check_speed_count clock [v1, v2] s hen_speed]
    have hsup2 : speedSuppressed s.alerts_history v2 = false := by
      unfold speedSuppressed at hsupSpeed ⊢
      rw [hicao]
      exact hsupSpeed
    simp [List.filter_cons, hs1, hs2, hsupSpeed, hsup2]
  · exact (check_cargo_new clock [v1, v2] s v1.icao24 hen_cargo hseen
      ⟨v1, by simp, ht1, rfl⟩).1

/-- Witness for C9 at two concrete records of the same aircraft, both below
the altitude threshold and above the speed threshold. -/
theorem C9_intra_batch_dedup_witness :
    countType "low_altitude" (check_alerts (constClock 0) [vDup1, vDup2] init_state).1 = 2 ∧
      countType "abnormal_speed" (check_alerts (constClock 0) [vDup1, vDup2] init_state).1 = 2 ∧
      countCargoFor "aaa111" (check_alerts (constClock 0) [vDup1, vDup2] init_state).1 = 1 :=
  C9_intra_batch_dedup (constClock 0) init_state vDup1 vDup2
    rfl rfl rfl rfl rfl rfl (by decide) (by decide) (by decide) (by decide)
    (by decide) rfl rfl

/-- C1 (failing input): two not-yet-seen cargo flights evaluated in one pass
with every `time.time()` sample landing in the same millisecond — both alerts
receive the id `int(time.time() * 1000)`, so the two ids coincide instead of
being pairwise distinct. -/
theorem C1_same_millisecond_id_collision :
    ((check_alerts (constClock 1700000000000) [vCargo1, vCargo2] init_state).1.map
        (fun a => a.id)) = [1700000000000, 1700000000000] ∧
      ¬ ((check_alerts (constClock 1700000000000) [vCargo1, vCargo2]
          init_state).1.map (fun a => a.id)).Pairwise (fun i j => i ≠ j) := by
  decide

/-- C4 (failing input): a 3-field raw state vector between two well-formed
vectors.  Normalization of the well-formed batch succeeds, but with the short
vector present `estado[6]` raises `IndexError`: in `app.py:vuelos` the whole
batch is lost (no record is normalized or evaluated), and in
`collector.py:process_and_store` the loop aborts after the first record, so
the trailing well-formed vector is never stored. -/
theorem C4_short_vector_aborts_batch :
    ((vuelos_normalize [] [] 7 [rawGood1, rawGood2]).map
        (fun l => l.map (fun v => v.icao24)) = .ok ["abc123", "def456"]) ∧
      vuelos_normalize [] [] 7 [rawGood1, rawShort, rawGood2] = .error "IndexError" ∧
      (process_and_store [] [] 7 [rawGood1, rawShort, rawGood2] []).1.map
        (fun v => v.icao24) = ["abc123"] ∧
      (process_and_store [] [] 7 [rawGood1, rawShort, rawGood2] []).2 =
        some "IndexError" :=
  ⟨rfl, rfl, rfl, rfl⟩

/-- C7 counterexample: a 200 response whose JSON body lacks `access_token`
makes `obtener_token` return `None` (and cache it with a fresh expiry) instead
of raising. -/
theorem C7_counterexample :
    obtener_token 1000 { access_token := none, expires_at := 0 }
        { status := 200, body := .fields [] } =
      .ok (none, { access_token := none, expires_at := 2800 }) := rfl

/-- C7 (amended): on a cache miss, `obtener_token` raises on every non-success
(4xx/5xx) status and on every unparseable body; but a success response whose
parseable JSON merely lacks a valid access token returns `None` rather than
raising (see the counterexample). -/
theorem C7_token_failure_modes (now : Nat) (cache : TokenCacheSt)
    (resp : HttpResp)
    (hfresh : ¬(truthyTok cache.access_token = true ∧ cache.expires_at > now)) :
    (400 ≤ resp.status →
      obtener_token now cache resp = .error (.httpError resp.status)) ∧
    (resp.status < 400 → resp.body = .malformed →
      obtener_token now cache resp = .error .jsonError) := by
  constructor
  · intro hstat
    unfold obtener_token
    rw [if_neg hfresh, if_pos hstat]
  · intro hstat hmal
    unfold obtener_token
    rw [if_neg hfresh, if_neg (show ¬400 ≤ resp.status by omega), hmal]

/-- Witness for C7 at a concrete failed exchange. -/
theorem C7_token_failure_modes_witness :
    obtener_token 0 { access_token := none, expires_at := 0 }
        { status := 503, body := .malformed } = .error (.httpError 503) :=
  (C7_token_failure_modes 0 { access_token := none, expires_at := 0 }
    { status := 503, body := .malformed } (by decide)).1 (by decide)

/-- C8 counterexample: for the whitespace-only callsign `" "` (with the
default empty operator mapping) the classifier returns `comercial`, but its
trimmed form is the empty string and returns `desconocido` — trimming the
input does change the result. -/
theorem C8_counterexample :
    pyStrip " " = "" ∧
      classify_flight [] [] " " = "comercial" ∧
      classify_flight [] [] (pyStrip " ") = "desconocido" := by
  refine ⟨by decide, by decide, by decide⟩

/-- C8 (amended): the classifier is a total deterministic function returning
`desconocido` exactly on the empty (or `None`) callsign; upper-casing the
input never changes the result, and trimming never changes it except for
whitespace-only callsigns (whose trimmed form is empty, see the
counterexample); on non-empty callsigns the first match wins in the order
configured cargo prefixes, configured commercial prefixes, built-in cargo
fallback, else `comercial`. -/
theorem C8_classifier (cp co : List String) (cs : String) :
    (classify_flight cp co cs = "desconocido" ↔ cs = "") ∧
    classify_flight cp co (pyUpper cs) = classify_flight cp co cs ∧
    (pyStrip cs ≠ "" → classify_flight cp co (pyStrip cs) = classify_flight cp co cs) ∧
    (cs ≠ "" →
      ((cp.any (fun p => pyStartsWith (pyUpper (pyStrip cs)) p) = true →
          classify_flight cp co cs = "carga") ∧
        (cp.any (fun p => pyStartsWith (pyUpper (pyStrip cs)) p) = false →
          co.any (fun p => pyStartsWith (pyUpper (pyStrip cs)) p) = true →
          classify_flight cp co cs = "comercial") ∧
        (cp.any (fun p => pyStartsWith (pyUpper (pyStrip cs)) p) = false →
          co.any (fun p => pyStartsWith (pyUpper (pyStrip cs)) p) = false →
          fallback_cargo.any (fun p => pyStartsWith (pyUpper (pyStrip cs)) p) = true →
          classify_flight cp co cs = "carga") ∧
        (cp.any (fun p => pyStartsWith (pyUpper (pyStrip cs)) p) = false →
          co.any (fun p => pyStartsWith (pyUpper (pyStrip cs)) p) = false →
          fallback_cargo.any (fun p => pyStartsWith (pyUpper (pyStrip cs)) p) = false →
          classify_flight cp co cs = "comercial"))) := by
  refine ⟨?_, ?_, ?_, ?_⟩
  · constructor
    · intro h
      by_contra hcs
      simp only [classify_flight, if_neg hcs] at h
      split at h
      · exact absurd h (by decide)
      · split at h
        · exact absurd h (by decide)
        · split at h
          · exact absurd h (by decide)
          · exact absurd h (by decide)
    · intro h
      simp [classify_flight, h]
  · by_cases hcs : cs = ""
    · rw [hcs]
      rfl
    · have hne : pyUpper cs ≠ "" := fun h => hcs ((pyUpper_eq_empty_iff cs).mp h)
      simp only [classify_flight, if_neg hcs, if_neg hne]
      rw [pyUpper_pyStrip_pyUpper cs]
  · intro h
    have hcs : cs ≠ "" := fun e => h (by rw [e]; rfl)
    simp only [classify_flight, if_neg h, if_neg hcs]
    rw [pyStrip_pyStrip]
  · intro hcs
    refine ⟨?_, ?_, ?_, ?_⟩
    · intro h1
      simp [classify_flight, if_neg hcs, h1]
    · intro h1 h2
      simp [classify_flight, if_neg hcs, h1, h2]
    · intro h1 h2 h3
      simp [classify_flight, if_neg hcs, h1, h2, h3]
    · intro h1 h2 h3
      simp [classify_flight, if_neg hcs, h1, h2, h3]

/-- Witness for C8: trimming a callsign with surrounding whitespace but
non-empty core does not change the classification, and a matched fallback
prefix classifies as cargo. -/
theorem C8_classifier_witness :
    (pyStrip " fdx1 " ≠ "" ∧
      classify_flight [] [] (pyStrip " fdx1 ") = classify_flight [] [] " fdx1 ") ∧
      (" fdx1 " ≠ "" ∧ classify_flight [] [] " fdx1 " = "carga") :=
  ⟨⟨by decide, (C8_classifier [] [] " fdx1 ").2.2.1 (by decide)⟩,
    ⟨by decide, ((C8_classifier [] [] " fdx1 ").2.2.2 (by decide)).2.2.1
      (by decide) (by decide) (by decide)⟩⟩
